import Mathlib

/-!
Verification of the EIP-7966 benchmark core

A shallow embedding of the transaction-benchmark application that compares a
polling submission flow (`runAsyncTransaction`: send, then wait for a receipt)
against a synchronous-wait flow (`runSyncTransaction`: a single
`eth_sendRawTransactionSync` call), together with the orchestrator's prefetch
and setup logic and the result-comparison and hash-formatting helpers.

Each definition is translated from the repository's source:
* `src/lib/benchmark-runner.ts` (and its near-identical earlier copy) for the
  two submission protocols;
* the two `TransactionBenchmark` orchestrator components (the current one with
  a distinct "Preparing" phase, and a legacy variant) for gas/nonce prefetch,
  setup-call logging, and result publication;
* `src/components/ComparisonCard.tsx` for the comparison;
* `src/lib/format-utils.ts` for `truncateHash`.

Network and signing effects are modelled by environments of explicit
`Except String` valued functions (a rejected promise carries its message as a
string, matching the `error instanceof Error ? error.message : "Unknown
error"` capture in the source), and each runner additionally returns the
ordered trace of client operations it invoked, so that claims about which
calls are made or skipped become statements about that trace.
-/

/-- One observed remote call, from `src/lib/instrumented-transport`'s
`RPCCallLog`: method name, start/end timestamps, duration and pending flag.
The runners only carry these logs through; they never inspect them. -/
structure RPCCallLog where
  method : String
  startTime : Nat
  endTime : Nat
  duration : Int
  isPending : Bool
deriving DecidableEq, Repr

/-- Interface `PrefetchOptions` from `src/lib/benchmark-runner.ts` (lines 11-18): three
independent flags selecting which transaction parameters are prefetched. -/
structure PrefetchOptions where
  nonce : Bool
  gasParams : Bool
  chainId : Bool
deriving DecidableEq, Repr

/-- Interface `PrefetchedGas` from `src/lib/benchmark-runner.ts` (lines 23-27): the gas
snapshot captured once per run.  The source's `bigint` fields are modelled as
`Int`. -/
structure PrefetchedGas where
  maxFeePerGas : Int
  maxPriorityFeePerGas : Int
  gas : Int
deriving DecidableEq, Repr

/-- The fixed paymaster fields spread into every transaction's base
parameters (`...paymasterConfig` in both runners).  The configuration module
itself is outside the benchmark core; its concrete values never influence any
control flow modelled here, so it is kept abstract as a pair of strings. -/
structure PaymasterConfig where
  paymaster : String
  paymasterInput : String
deriving DecidableEq, Repr

/-- Constant `zeroAddress` from `viem`, the recipient of every benchmark transaction. -/
def zeroAddress : String := "0x0000000000000000000000000000000000000000"

/-- Constant `abstractTestnet.id` from `viem/chains`, attached on the fast path. -/
def abstractTestnetId : Nat := 11124

/-- The transaction-parameter bag assembled by both runners
(`TransactionParams` in `src/types/client-types.ts`, plus the `from` and
`chainId` fields the fast path adds before signing).  The source's `to` and
`from` fields are spelt `toAddr` and `fromAddr` here, since both words are
reserved in Lean. -/
structure TxParams where
  toAddr : String
  value : Int
  paymasterFields : PaymasterConfig
  nonce : Option Nat
  maxFeePerGas : Option Int
  maxPriorityFeePerGas : Option Int
  gas : Option Int
  fromAddr : Option String
  chainId : Option Nat
deriving DecidableEq, Repr

/-- Parameter assembly shared by both runners (`benchmark-runner.ts` lines
52-68 and 160-176): base parameters `{to: zeroAddress, value: 0,
...paymasterConfig}`, then the nonce when `prefetchOptions.nonce` is set,
then the three gas fields when `prefetchOptions.gasParams` is set and
`prefetchedGas` is non-null. -/
def buildTxParams (pc : PaymasterConfig) (nonce : Nat) (opts : PrefetchOptions)
    (prefetchedGas : Option PrefetchedGas) : TxParams :=
  let base : TxParams :=
    { toAddr := zeroAddress, value := 0, paymasterFields := pc,
      nonce := none, maxFeePerGas := none, maxPriorityFeePerGas := none,
      gas := none, fromAddr := none, chainId := none }
  let withNonce := if opts.nonce then { base with nonce := some nonce } else base
  match prefetchedGas with
  | some g =>
      if opts.gasParams then
        { withNonce with
          maxFeePerGas := some g.maxFeePerGas,
          maxPriorityFeePerGas := some g.maxPriorityFeePerGas,
          gas := some g.gas }
      else withNonce
  | none => withNonce

/-- Structure `BenchmarkResult` from `src/types/benchmark`: the terminal value each flow
produces (timings as read from the clock, hash, status, optional error
message, and the flow's call log). -/
structure BenchmarkResult where
  type : String
  startTime : Nat
  endTime : Nat
  duration : Int
  txHash : String
  status : String
  error : Option String
  rpcCalls : List RPCCallLog
deriving DecidableEq, Repr

/-- The success literal built at `benchmark-runner.ts` lines 113-121 and
203-211: `duration` is `endTime - startTime`, status `"success"`, and the
flow's accumulated call log is carried through. -/
def mkSuccessResult (type : String) (startTime endTime : Nat) (hash : String)
    (rpcCalls : List RPCCallLog) : BenchmarkResult :=
  { type := type, startTime := startTime, endTime := endTime,
    duration := (endTime : Int) - (startTime : Int), txHash := hash,
    status := "success", error := none, rpcCalls := rpcCalls }

/-- The catch-branch literal built at `benchmark-runner.ts` lines 124-133 and
214-223: status `"error"`, the captured message, and `txHash` always the
empty string. -/
def mkErrorResult (type : String) (startTime endTime : Nat) (msg : String)
    (rpcCalls : List RPCCallLog) : BenchmarkResult :=
  { type := type, startTime := startTime, endTime := endTime,
    duration := (endTime : Int) - (startTime : Int), txHash := "",
    status := "error", error := some msg, rpcCalls := rpcCalls }

/-- A receipt returned by `sendRawTransactionSync`
(`src/types/client-types.ts` lines 17-22); only its hash is consumed. -/
structure Receipt where
  transactionHash : String
deriving DecidableEq, Repr

/-- One client operation a runner invokes, with its argument; the runners'
traces are lists of these.  The constructors name exactly the wallet/public
client methods called in `benchmark-runner.ts`. -/
inductive ClientCall where
  | signTransaction (request : TxParams)
  | sendRawTransaction (serializedTransaction : String)
  | sendTransaction (params : TxParams)
  | prepareTransactionRequest (params : TxParams)
  | sendRawTransactionSync (serializedTransaction : String)
  | waitForTransactionReceipt (hash : String)
deriving DecidableEq, Repr

/-- Environment for the polling flow: the terminal clock reads and the
outcome of each awaited client operation (`Except.error msg` models a
rejected promise whose message is `msg`). -/
structure AsyncEnv where
  startTime : Nat
  endTime : Nat
  signTransaction : TxParams → Except String String
  sendRawTransaction : String → Except String String
  sendTransaction : TxParams → Except String String
  waitForTransactionReceipt : String → Except String Unit

/-- Function `runAsyncTransaction` (`benchmark-runner.ts` lines 40-135): assemble
parameters; when all three prefetch flags are set and `prefetchedGas` is
non-null, attach `from` and `chainId` to the parameters, sign them and submit
via `sendRawTransaction`, otherwise hand the parameters to `sendTransaction`;
then wait for the receipt; any rejection falls to the catch branch.  Returns
the result together with the ordered trace of client operations invoked. -/
def runAsyncTransaction (env : AsyncEnv) (pc : PaymasterConfig)
    (account : String) (nonce : Nat) (rpcCalls : List RPCCallLog)
    (opts : PrefetchOptions) (prefetchedGas : Option PrefetchedGas) :
    BenchmarkResult × List ClientCall :=
  let txParams := buildTxParams pc nonce opts prefetchedGas
  let submit : Except String String × List ClientCall :=
    if opts.nonce && opts.gasParams && opts.chainId && prefetchedGas.isSome then
      let requestToSign :=
        { txParams with fromAddr := some account, chainId := some abstractTestnetId }
      match env.signTransaction requestToSign with
      | Except.error e => (Except.error e, [ClientCall.signTransaction requestToSign])
      | Except.ok serializedTransaction =>
          (env.sendRawTransaction serializedTransaction,
           [ClientCall.signTransaction requestToSign,
            ClientCall.sendRawTransaction serializedTransaction])
    else
      (env.sendTransaction txParams, [ClientCall.sendTransaction txParams])
  match submit with
  | (Except.error e, calls) =>
      (mkErrorResult "async" env.startTime env.endTime e rpcCalls, calls)
  | (Except.ok hash, calls) =>
      match env.waitForTransactionReceipt hash with
      | Except.error e =>
          (mkErrorResult "async" env.startTime env.endTime e rpcCalls,
           calls ++ [ClientCall.waitForTransactionReceipt hash])
      | Except.ok _ =>
          (mkSuccessResult "async" env.startTime env.endTime hash rpcCalls,
           calls ++ [ClientCall.waitForTransactionReceipt hash])

/-- Environment for the synchronous-wait flow. -/
structure SyncEnv where
  startTime : Nat
  endTime : Nat
  prepareTransactionRequest : TxParams → Except String TxParams
  signTransaction : TxParams → Except String String
  sendRawTransactionSync : String → Except String Receipt

/-- Function `runSyncTransaction` (`benchmark-runner.ts` lines 148-225): assemble
parameters exactly as the polling flow does, then unconditionally
`prepareTransactionRequest`, sign the prepared request, and issue a single
`sendRawTransactionSync` whose receipt's `transactionHash` becomes the
result's hash; any rejection falls to the catch branch. -/
def runSyncTransaction (env : SyncEnv) (pc : PaymasterConfig) (nonce : Nat)
    (rpcCalls : List RPCCallLog) (opts : PrefetchOptions)
    (prefetchedGas : Option PrefetchedGas) :
    BenchmarkResult × List ClientCall :=
  let txParams := buildTxParams pc nonce opts prefetchedGas
  match env.prepareTransactionRequest txParams with
  | Except.error e =>
      (mkErrorResult "sync" env.startTime env.endTime e rpcCalls,
       [ClientCall.prepareTransactionRequest txParams])
  | Except.ok request =>
      match env.signTransaction request with
      | Except.error e =>
          (mkErrorResult "sync" env.startTime env.endTime e rpcCalls,
           [ClientCall.prepareTransactionRequest txParams,
            ClientCall.signTransaction request])
      | Except.ok serializedTransaction =>
          match env.sendRawTransactionSync serializedTransaction with
          | Except.error e =>
              (mkErrorResult "sync" env.startTime env.endTime e rpcCalls,
               [ClientCall.prepareTransactionRequest txParams,
                ClientCall.signTransaction request,
                ClientCall.sendRawTransactionSync serializedTransaction])
          | Except.ok receipt =>
              (mkSuccessResult "sync" env.startTime env.endTime
                 receipt.transactionHash rpcCalls,
               [ClientCall.prepareTransactionRequest txParams,
                ClientCall.signTransaction request,
                ClientCall.sendRawTransactionSync serializedTransaction])

/-- The values the gas-prefetch step reads from the network: the latest
block's `baseFeePerGas` (absent on pre-EIP-1559 responses), the
`eth_maxPriorityFeePerGas` suggestion, and the gas estimate for the
zero-value transfer. -/
structure GasOracle where
  baseFeePerGas : Option Int
  maxPriorityFee : Int
  gasEstimate : Int

/-- The gas snapshot computed in both orchestrator variants:
`maxFeePerGas = block.baseFeePerGas ? block.baseFeePerGas + priorityFee :
priorityFee` (note the JavaScript truthiness test: a present but zero base
fee also selects the `priorityFee` branch), `maxPriorityFeePerGas =
priorityFee`, `gas = gasEstimate`. -/
def computePrefetchedGas (o : GasOracle) : PrefetchedGas :=
  { maxFeePerGas :=
      match o.baseFeePerGas with
      | some b => if b = 0 then o.maxPriorityFee else b + o.maxPriorityFee
      | none => o.maxPriorityFee,
    maxPriorityFeePerGas := o.maxPriorityFee,
    gas := o.gasEstimate }

/-- The orchestrator's gas-prefetch step: `prefetchedGas` starts as `null`
and is assigned only inside the `if (prefetchOptions.gasParams)` block, so it
stays `null` whenever gas prefetch is disabled. -/
def orchestratorPrefetchGas (opts : PrefetchOptions) (o : GasOracle) :
    Option PrefetchedGas :=
  if opts.gasParams then some (computePrefetchedGas o) else none

/-- A network query the orchestrator issues during setup, before either
submission protocol starts.  The `getTransactionCount` constructor's flag
distinguishes the sync identity's query from the async identity's. -/
inductive SetupCall where
  | getBlock
  | maxPriorityFeePerGas
  | estimateGas
  | getTransactionCount (forSyncAccount : Bool)
deriving DecidableEq, Repr

/-- Which call log a client's logger feeds: the async flow's array, the sync
flow's array, or nowhere (a `() => \x7b\x7d` no-op logger). -/
inductive LoggerTarget where
  | asyncFlow
  | syncFlow
  | silent
deriving DecidableEq, Repr

/-- The setup queries of the current orchestrator (the `TransactionBenchmark`
variant with a distinct Preparing phase) with the logger each is wired to:
the three gas-prefetch queries go through `prefetchClients`, created with the
no-op logger, and when nonce prefetch is disabled the two
`getTransactionCount` queries go through `tempAsyncClient`/`tempSyncClient`,
also created with no-op loggers. -/
def setupCallTargets (opts : PrefetchOptions) :
    List (SetupCall × LoggerTarget) :=
  (if opts.gasParams then
     [(SetupCall.getBlock, LoggerTarget.silent),
      (SetupCall.maxPriorityFeePerGas, LoggerTarget.silent),
      (SetupCall.estimateGas, LoggerTarget.silent)]
   else []) ++
  (if opts.nonce then []
   else
     [(SetupCall.getTransactionCount false, LoggerTarget.silent),
      (SetupCall.getTransactionCount true, LoggerTarget.silent)])

/-- The setup queries of the legacy orchestrator variant (the
`TransactionBenchmark` copy without a Preparing phase): gas prefetch still
uses the no-op-logged `prefetchClients`, but when nonce prefetch is disabled
the two `getTransactionCount` queries go through `asyncClients.publicClient`
and `syncClients.publicClient`, whose loggers append to the flows' own
`asyncRPCCalls`/`syncRPCCalls` arrays. -/
def legacySetupCallTargets (opts : PrefetchOptions) :
    List (SetupCall × LoggerTarget) :=
  (if opts.gasParams then
     [(SetupCall.getBlock, LoggerTarget.silent),
      (SetupCall.maxPriorityFeePerGas, LoggerTarget.silent),
      (SetupCall.estimateGas, LoggerTarget.silent)]
   else []) ++
  (if opts.nonce then []
   else
     [(SetupCall.getTransactionCount false, LoggerTarget.asyncFlow),
      (SetupCall.getTransactionCount true, LoggerTarget.syncFlow)])

/-- The contents of the two flows' call-log arrays after the setup queries
run: each query appends to the array its logger targets (or to neither, for a
no-op logger).  First component: the async flow's array; second: the sync
flow's. -/
def logsAfterSetup (targets : List (SetupCall × LoggerTarget)) :
    List SetupCall × List SetupCall :=
  targets.foldl
    (fun acc ct =>
      match ct.2 with
      | LoggerTarget.asyncFlow => (acc.1 ++ [ct.1], acc.2)
      | LoggerTarget.syncFlow => (acc.1, acc.2 ++ [ct.1])
      | LoggerTarget.silent => acc)
    ([], [])

/-- The current orchestrator's completion handler: its `.then` block stops
the timer, clears the partial result and publishes the runner's
`BenchmarkResult` unchanged (`setAsyncResult(res); return res`). -/
def publishResult (res : BenchmarkResult) : BenchmarkResult := res

/-- The legacy orchestrator's completion handler: its `.then` block rebuilds
the result as `{ ...res, duration: Date.now() - startTime }`, overwriting the
runner's duration with the elapsed time since the orchestrator's own start
read, which was taken before the prefetch and nonce setup ran. -/
def legacyPublishResult (res : BenchmarkResult) (orchStartTime now : Nat) :
    BenchmarkResult :=
  { res with duration := (now : Int) - (orchStartTime : Int) }

/-- The winner label computed by `ComparisonCard` (line 11):
`syncResult.duration < asyncResult.duration ? "Sync (EIP-7966)" : "Async"`. -/
def comparisonWinner (asyncResult syncResult : BenchmarkResult) : String :=
  if syncResult.duration < asyncResult.duration then "Sync (EIP-7966)" else "Async"

/-- The result the winner label denotes: the sync-slot result exactly when
its duration is strictly lower, otherwise the async-slot result (ties fall to
the async slot, mirroring the strict `<` in `ComparisonCard` line 11). -/
def comparisonWinnerResult (asyncResult syncResult : BenchmarkResult) :
    BenchmarkResult :=
  if syncResult.duration < asyncResult.duration then syncResult else asyncResult

/-- The margin computed by `ComparisonCard` (line 12):
`Math.abs(asyncResult.duration - syncResult.duration)`. -/
def comparisonTimeDifference (asyncResult syncResult : BenchmarkResult) : Int :=
  |asyncResult.duration - syncResult.duration|

/-- Function `truncateHash` from `src/lib/format-utils.ts` (lines 10-13):
`if (!hash || hash.length < 10) return hash;
return hash.slice(0, 6) + "..." + hash.slice(-4)`.
`hash.slice(0, 6)` is the first six characters and `hash.slice(-4)` the last
four (the string has at least ten characters in that branch). -/
def truncateHash (hash : String) : String :=
  if hash = "" || hash.length < 10 then hash
  else (hash.toList.take 6).asString ++ "..."
         ++ (hash.toList.drop (hash.length - 4)).asString

/-- A sample paymaster configuration used for concrete evaluations. -/
def samplePaymaster : PaymasterConfig :=
  { paymaster := "0xpm", paymasterInput := "0xdata" }

/-- A sample prefetched-gas snapshot used for concrete evaluations. -/
def sampleGas : PrefetchedGas :=
  { maxFeePerGas := 110, maxPriorityFeePerGas := 10, gas := 21000 }

/-- A polling-flow environment in which every client operation succeeds:
signing yields "0xsigned", both submission calls yield hash "0xabc", and the
receipt wait resolves. -/
def okAsyncEnv : AsyncEnv :=
  { startTime := 100, endTime := 250,
    signTransaction := fun _ => Except.ok "0xsigned",
    sendRawTransaction := fun _ => Except.ok "0xabc",
    sendTransaction := fun _ => Except.ok "0xabc",
    waitForTransactionReceipt := fun _ => Except.ok () }

/-- A polling-flow environment in which submission succeeds with hash
"0xabc" but the receipt wait rejects, exercising the catch branch after a
hash was obtained. -/
def waitFailAsyncEnv : AsyncEnv :=
  { okAsyncEnv with
    waitForTransactionReceipt := fun _ => Except.error "receipt timeout" }

/-- A synchronous-flow environment in which every operation succeeds and the
synchronous send returns a receipt with hash "0xsynchash". -/
def okSyncEnv : SyncEnv :=
  { startTime := 100, endTime := 200,
    prepareTransactionRequest := fun p => Except.ok p,
    signTransaction := fun _ => Except.ok "0xsigned",
    sendRawTransactionSync := fun _ =>
      Except.ok { transactionHash := "0xsynchash" } }

/-- A synchronous-flow environment whose signing step rejects. -/
def failSyncEnv : SyncEnv :=
  { okSyncEnv with signTransaction := fun _ => Except.error "signing failed" }

/-- A sample gas oracle with a present, non-zero base fee. -/
def sampleOracle : GasOracle :=
  { baseFeePerGas := some 100, maxPriorityFee := 10, gasEstimate := 21000 }

/-- Two distinct completed results with equal durations, for exercising the
comparison on a tie. -/
def tieResultA : BenchmarkResult :=
  { type := "async", startTime := 0, endTime := 5, duration := 5,
    txHash := "0xaaa", status := "success", error := none, rpcCalls := [] }

/-- The second tied result; it differs from `tieResultA` only in its kind and
hash. -/
def tieResultB : BenchmarkResult :=
  { tieResultA with type := "sync", txHash := "0xbbb" }

theorem runAsync_result_cases (env : AsyncEnv) (pc : PaymasterConfig)
    (account : String) (nonce : Nat) (logs : List RPCCallLog)
    (opts : PrefetchOptions) (g : Option PrefetchedGas) :
    (∃ h, (runAsyncTransaction env pc account nonce logs opts g).1 =
        mkSuccessResult "async" env.startTime env.endTime h logs) ∨
    (∃ m, (runAsyncTransaction env pc account nonce logs opts g).1 =
        mkErrorResult "async" env.startTime env.endTime m logs) := by
  simp only [runAsyncTransaction]
  split
  · exact Or.inr ⟨_, rfl⟩
  · split
    · exact Or.inr ⟨_, rfl⟩
    · exact Or.inl ⟨_, rfl⟩

theorem runSync_result_cases (env : SyncEnv) (pc : PaymasterConfig)
    (nonce : Nat) (logs : List RPCCallLog) (opts : PrefetchOptions)
    (g : Option PrefetchedGas) :
    (∃ h, (runSyncTransaction env pc nonce logs opts g).1 =
        mkSuccessResult "sync" env.startTime env.endTime h logs) ∨
    (∃ m, (runSyncTransaction env pc nonce logs opts g).1 =
        mkErrorResult "sync" env.startTime env.endTime m logs) := by
  simp only [runSyncTransaction]
  split
  · exact Or.inr ⟨_, rfl⟩
  · split
    · exact Or.inr ⟨_, rfl⟩
    · split
      · exact Or.inr ⟨_, rfl⟩
      · exact Or.inl ⟨_, rfl⟩

theorem runAsync_normal_path (env : AsyncEnv) (pc : PaymasterConfig)
    (account : String) (nonce : Nat) (logs : List RPCCallLog)
    (opts : PrefetchOptions) (g : Option PrefetchedGas)
    (hc : (opts.nonce && opts.gasParams && opts.chainId && g.isSome) = false) :
    (runAsyncTransaction env pc account nonce logs opts g).2.head? =
      some (ClientCall.sendTransaction (buildTxParams pc nonce opts g)) ∧
    (∀ p, ClientCall.signTransaction p ∉
        (runAsyncTransaction env pc account nonce logs opts g).2) ∧
    (∀ s, ClientCall.sendRawTransaction s ∉
        (runAsyncTransaction env pc account nonce logs opts g).2) ∧
    (∀ p, ClientCall.prepareTransactionRequest p ∉
        (runAsyncTransaction env pc account nonce logs opts g).2) := by
  simp only [runAsyncTransaction, hc, Bool.false_eq_true, if_false]
  rcases hsend : env.sendTransaction (buildTxParams pc nonce opts g) with e | h
  · simp
  · rcases hwait : env.waitForTransactionReceipt h with e' | u <;> simp [hwait]

theorem runAsync_fast_path (env : AsyncEnv) (pc : PaymasterConfig)
    (account : String) (nonce : Nat) (logs : List RPCCallLog)
    (opts : PrefetchOptions) (g : Option PrefetchedGas)
    (hc : (opts.nonce && opts.gasParams && opts.chainId && g.isSome) = true) :
    (runAsyncTransaction env pc account nonce logs opts g).2.head? =
      some (ClientCall.signTransaction
        { buildTxParams pc nonce opts g with
          fromAddr := some account, chainId := some abstractTestnetId }) ∧
    (∀ p, ClientCall.prepareTransactionRequest p ∉
        (runAsyncTransaction env pc account nonce logs opts g).2) ∧
    (∀ p, ClientCall.sendTransaction p ∉
        (runAsyncTransaction env pc account nonce logs opts g).2) ∧
    (∀ s, env.signTransaction
        { buildTxParams pc nonce opts g with
          fromAddr := some account, chainId := some abstractTestnetId } =
          Except.ok s →
        ClientCall.sendRawTransaction s ∈
          (runAsyncTransaction env pc account nonce logs opts g).2) := by
  simp only [runAsyncTransaction, hc, if_true]
  rcases hsign : env.signTransaction
      { buildTxParams pc nonce opts g with
        fromAddr := some account, chainId := some abstractTestnetId } with e | ser
  · simp [hsign]
  · rcases hraw : env.sendRawTransaction ser with e' | h
    · simp [hsign, hraw]
    · rcases hwait : env.waitForTransactionReceipt h with e'' | u <;>
        simp [hsign, hraw, hwait]

/-- Claim C1. In the polling flow, exactly when all three prefetch flags are
set and the prefetched gas is non-null, the flow takes the fast path: it
never invokes the prepare/estimate call or the standard send call, its first
client operation signs the assembled parameters with the sender address and
the fixed chain identifier attached, and a successful signature is submitted
via the raw-send call; in every other configuration its first operation
hands the partially-filled parameters to the standard send call, and neither
the direct signing step nor the raw-send call is ever invoked. -/
theorem runAsync_fast_path_iff (env : AsyncEnv) (pc : PaymasterConfig)
    (account : String) (nonce : Nat) (logs : List RPCCallLog)
    (opts : PrefetchOptions) (g : Option PrefetchedGas) :
    ((opts.nonce && opts.gasParams && opts.chainId && g.isSome) = true →
      (runAsyncTransaction env pc account nonce logs opts g).2.head? =
        some (ClientCall.signTransaction
          { buildTxParams pc nonce opts g with
            fromAddr := some account, chainId := some abstractTestnetId }) ∧
      (∀ p, ClientCall.prepareTransactionRequest p ∉
          (runAsyncTransaction env pc account nonce logs opts g).2) ∧
      (∀ p, ClientCall.sendTransaction p ∉
          (runAsyncTransaction env pc account nonce logs opts g).2) ∧
      (∀ s, env.signTransaction
          { buildTxParams pc nonce opts g with
            fromAddr := some account, chainId := some abstractTestnetId } =
            Except.ok s →
          ClientCall.sendRawTransaction s ∈
            (runAsyncTransaction env pc account nonce logs opts g).2)) ∧
    ((opts.nonce && opts.gasParams && opts.chainId && g.isSome) = false →
      (runAsyncTransaction env pc account nonce logs opts g).2.head? =
        some (ClientCall.sendTransaction (buildTxParams pc nonce opts g)) ∧
      (∀ p, ClientCall.signTransaction p ∉
          (runAsyncTransaction env pc account nonce logs opts g).2) ∧
      (∀ s, ClientCall.sendRawTransaction s ∉
          (runAsyncTransaction env pc account nonce logs opts g).2)) :=
  ⟨fun hc => runAsync_fast_path env pc account nonce logs opts g hc,
   fun hc =>
     have h := runAsync_normal_path env pc account nonce logs opts g hc
     ⟨h.1, h.2.1, h.2.2.1⟩⟩

/-- Witness for `runAsync_fast_path_iff` at a fully prefetched concrete
configuration in the all-successful environment. -/
theorem runAsync_fast_path_iff_witness :
    (runAsyncTransaction okAsyncEnv samplePaymaster "0xsender" 7 []
        { nonce := true, gasParams := true, chainId := true }
        (some sampleGas)).2.head? =
      some (ClientCall.signTransaction
        { buildTxParams samplePaymaster 7
            { nonce := true, gasParams := true, chainId := true }
            (some sampleGas) with
          fromAddr := some "0xsender", chainId := some abstractTestnetId }) ∧
    ClientCall.sendRawTransaction "0xsigned" ∈
      (runAsyncTransaction okAsyncEnv samplePaymaster "0xsender" 7 []
        { nonce := true, gasParams := true, chainId := true }
        (some sampleGas)).2 := by
  have h := runAsync_fast_path_iff okAsyncEnv samplePaymaster "0xsender" 7 []
    { nonce := true, gasParams := true, chainId := true } (some sampleGas)
  have h1 := h.1 (by decide)
  exact ⟨h1.1, h1.2.2.2 "0xsigned" rfl⟩

/-- Claim C2. For every prefetch configuration, the synchronous-wait protocol
first runs full preparation on the assembled parameters (it has no fast
path), then signs, then issues at most one synchronous-send call and no
receipt-retrieval call; on success its trace is exactly prepare, sign, one
synchronous send, and the result's hash is the `transactionHash` of the
receipt that single call returned. -/
theorem runSync_protocol_shape (env : SyncEnv) (pc : PaymasterConfig)
    (nonce : Nat) (logs : List RPCCallLog) (opts : PrefetchOptions)
    (g : Option PrefetchedGas) :
    (runSyncTransaction env pc nonce logs opts g).2.head? =
      some (ClientCall.prepareTransactionRequest (buildTxParams pc nonce opts g)) ∧
    (∀ h, ClientCall.waitForTransactionReceipt h ∉
        (runSyncTransaction env pc nonce logs opts g).2) ∧
    List.countP
      (fun c => match c with
        | ClientCall.sendRawTransactionSync _ => true
        | _ => false)
      (runSyncTransaction env pc nonce logs opts g).2 ≤ 1 ∧
    ((runSyncTransaction env pc nonce logs opts g).1.status = "success" →
      ∃ request ser receipt,
        env.prepareTransactionRequest (buildTxParams pc nonce opts g) =
          Except.ok request ∧
        env.signTransaction request = Except.ok ser ∧
        env.sendRawTransactionSync ser = Except.ok receipt ∧
        (runSyncTransaction env pc nonce logs opts g).2 =
          [ClientCall.prepareTransactionRequest (buildTxParams pc nonce opts g),
           ClientCall.signTransaction request,
           ClientCall.sendRawTransactionSync ser] ∧
        (runSyncTransaction env pc nonce logs opts g).1.txHash =
          receipt.transactionHash) := by
  rcases hp : env.prepareTransactionRequest (buildTxParams pc nonce opts g)
    with e | request
  · refine ⟨?_, ?_, ?_, ?_⟩ <;>
      simp [runSyncTransaction, hp, mkErrorResult, mkSuccessResult]
  · rcases hs : env.signTransaction request with e | ser
    · refine ⟨?_, ?_, ?_, ?_⟩ <;>
        simp [runSyncTransaction, hp, hs, mkErrorResult, mkSuccessResult]
    · rcases hr : env.sendRawTransactionSync ser with e | receipt
      · refine ⟨?_, ?_, ?_, ?_⟩ <;>
          simp [runSyncTransaction, hp, hs, hr, mkErrorResult, mkSuccessResult]
      · refine ⟨?_, ?_, ?_,
          fun _ => ⟨request, ser, receipt, rfl, hs, hr, ?_, ?_⟩⟩ <;>
          simp [runSyncTransaction, hp, hs, hr, mkErrorResult, mkSuccessResult]

/-- Witness for `runSync_protocol_shape` in the all-successful environment:
its success clause is exercised and yields the receipt's hash. -/
theorem runSync_protocol_shape_witness :
    (runSyncTransaction okSyncEnv samplePaymaster 0 []
        { nonce := false, gasParams := false, chainId := false } none).2.head? =
      some (ClientCall.prepareTransactionRequest
        (buildTxParams samplePaymaster 0
          { nonce := false, gasParams := false, chainId := false } none)) ∧
    (runSyncTransaction okSyncEnv samplePaymaster 0 []
        { nonce := false, gasParams := false, chainId := false } none).1.txHash =
      "0xsynchash" := by
  have h := runSync_protocol_shape okSyncEnv samplePaymaster 0 []
    { nonce := false, gasParams := false, chainId := false } none
  obtain ⟨request, ser, receipt, hp, hs, hr, htrace, hhash⟩ := h.2.2.2 (by decide)
  refine ⟨h.1, ?_⟩
  have hrec : receipt = { transactionHash := "0xsynchash" } := by
    have : Except.ok (ε := String)
        ({ transactionHash := "0xsynchash" } : Receipt) = Except.ok receipt := hr
    exact (Except.ok.inj this).symm
  rw [hhash, hrec]

/-- Claim C3, amended. When any step of either submission protocol
fails, the protocol returns a terminal result with status "error", a captured
error message, the accumulated call log and the clock's start/end reads — and
its transaction hash is always the empty string, even when a hash had been
obtained before the failure. -/
theorem error_results_shape (envA : AsyncEnv) (envS : SyncEnv)
    (pc : PaymasterConfig) (account : String) (nonce : Nat)
    (logs : List RPCCallLog) (opts : PrefetchOptions)
    (g : Option PrefetchedGas) :
    ((runAsyncTransaction envA pc account nonce logs opts g).1.status = "error" →
      (runAsyncTransaction envA pc account nonce logs opts g).1.txHash = "" ∧
      (runAsyncTransaction envA pc account nonce logs opts g).1.error.isSome = true ∧
      (runAsyncTransaction envA pc account nonce logs opts g).1.rpcCalls = logs ∧
      (runAsyncTransaction envA pc account nonce logs opts g).1.startTime =
        envA.startTime ∧
      (runAsyncTransaction envA pc account nonce logs opts g).1.endTime =
        envA.endTime) ∧
    ((runSyncTransaction envS pc nonce logs opts g).1.status = "error" →
      (runSyncTransaction envS pc nonce logs opts g).1.txHash = "" ∧
      (runSyncTransaction envS pc nonce logs opts g).1.error.isSome = true ∧
      (runSyncTransaction envS pc nonce logs opts g).1.rpcCalls = logs ∧
      (runSyncTransaction envS pc nonce logs opts g).1.startTime =
        envS.startTime ∧
      (runSyncTransaction envS pc nonce logs opts g).1.endTime = envS.endTime) := by
  constructor
  · intro hst
    rcases runAsync_result_cases envA pc account nonce logs opts g with
      ⟨h, he⟩ | ⟨m, he⟩
    · rw [he] at hst; simp [mkSuccessResult] at hst
    · rw [he]; simp [mkErrorResult]
  · intro hst
    rcases runSync_result_cases envS pc nonce logs opts g with
      ⟨h, he⟩ | ⟨m, he⟩
    · rw [he] at hst; simp [mkSuccessResult] at hst
    · rw [he]; simp [mkErrorResult]

/-- Witness for `error_results_shape`: concrete failing environments for both
flows (the polling flow's receipt wait rejects; the synchronous flow's
signing step rejects). -/
theorem error_results_shape_witness :
    (runAsyncTransaction waitFailAsyncEnv samplePaymaster "0xsender" 0 []
        { nonce := false, gasParams := false, chainId := false } none).1.txHash =
      "" ∧
    (runSyncTransaction failSyncEnv samplePaymaster 0 []
        { nonce := false, gasParams := false, chainId := false } none).1.txHash =
      "" := by
  have h := error_results_shape waitFailAsyncEnv failSyncEnv samplePaymaster
    "0xsender" 0 [] { nonce := false, gasParams := false, chainId := false } none
  exact ⟨(h.1 (by decide)).1, (h.2 (by decide)).1⟩

/-- Counterexample to claim C3 as stated. With every step succeeding except the receipt
wait, the polling flow obtains hash "0xabc" from submission (the receipt wait
is invoked on that very hash), yet the error result's hash is the empty
string, not "0xabc" — the error result does not carry the obtained hash. -/
theorem error_hash_counterexample :
    (runAsyncTransaction waitFailAsyncEnv samplePaymaster "0xsender" 0 []
        { nonce := false, gasParams := false, chainId := false } none).1.status =
      "error" ∧
    ClientCall.waitForTransactionReceipt "0xabc" ∈
      (runAsyncTransaction waitFailAsyncEnv samplePaymaster "0xsender" 0 []
        { nonce := false, gasParams := false, chainId := false } none).2 ∧
    (runAsyncTransaction waitFailAsyncEnv samplePaymaster "0xsender" 0 []
        { nonce := false, gasParams := false, chainId := false } none).1.txHash =
      "" ∧
    (runAsyncTransaction waitFailAsyncEnv samplePaymaster "0xsender" 0 []
        { nonce := false, gasParams := false, chainId := false } none).1.txHash ≠
      "0xabc" := by
  decide

/-- Claim C4, amended. Every result a flow produces — in the success and in
the error branch alike — and hence also the result the current orchestrator
publishes unchanged, satisfies `duration = endTime - startTime` exactly, and
`duration ≥ 0` given that the clock is non-decreasing between the start and
end reads. -/
theorem results_duration_invariant (envA : AsyncEnv) (envS : SyncEnv)
    (pc : PaymasterConfig) (account : String) (nonce : Nat)
    (logs : List RPCCallLog) (opts : PrefetchOptions) (g : Option PrefetchedGas)
    (hA : envA.startTime ≤ envA.endTime) (hS : envS.startTime ≤ envS.endTime) :
    ((publishResult (runAsyncTransaction envA pc account nonce logs opts g).1).duration =
      ((publishResult (runAsyncTransaction envA pc account nonce logs opts g).1).endTime : Int) -
      ((publishResult (runAsyncTransaction envA pc account nonce logs opts g).1).startTime : Int) ∧
     0 ≤ (publishResult (runAsyncTransaction envA pc account nonce logs opts g).1).duration) ∧
    ((publishResult (runSyncTransaction envS pc nonce logs opts g).1).duration =
      ((publishResult (runSyncTransaction envS pc nonce logs opts g).1).endTime : Int) -
      ((publishResult (runSyncTransaction envS pc nonce logs opts g).1).startTime : Int) ∧
     0 ≤ (publishResult (runSyncTransaction envS pc nonce logs opts g).1).duration) := by
  constructor
  · rcases runAsync_result_cases envA pc account nonce logs opts g with
      ⟨h, he⟩ | ⟨m, he⟩ <;>
      rw [he] <;> simp [publishResult, mkSuccessResult, mkErrorResult] <;> omega
  · rcases runSync_result_cases envS pc nonce logs opts g with
      ⟨h, he⟩ | ⟨m, he⟩ <;>
      rw [he] <;> simp [publishResult, mkSuccessResult, mkErrorResult] <;> omega

/-- Witness for `results_duration_invariant` at the concrete successful
environments (clock reads 100 ≤ 250 and 100 ≤ 200). -/
theorem results_duration_invariant_witness :
    0 ≤ (publishResult (runAsyncTransaction okAsyncEnv samplePaymaster
          "0xsender" 0 [] { nonce := false, gasParams := false, chainId := false }
          none).1).duration ∧
    0 ≤ (publishResult (runSyncTransaction okSyncEnv samplePaymaster 0 []
          { nonce := false, gasParams := false, chainId := false } none).1).duration := by
  have h := results_duration_invariant okAsyncEnv okSyncEnv samplePaymaster
    "0xsender" 0 [] { nonce := false, gasParams := false, chainId := false } none
    (by decide) (by decide)
  exact ⟨h.1.2, h.2.2⟩

/-- Counterexample to claim C4 as stated. The legacy orchestrator's completion handler
publishes a completed (successful) result whose duration is measured from
the orchestrator's own earlier start read: with the flow running from 100 to
250 but the orchestrator started at 40 and finishing the handler at 260, the
published duration is 220 while `endTime - startTime` is 150. -/
theorem duration_invariant_counterexample :
    (legacyPublishResult (runAsyncTransaction okAsyncEnv samplePaymaster
        "0xsender" 0 [] { nonce := false, gasParams := false, chainId := false }
        none).1 40 260).status = "success" ∧
    (legacyPublishResult (runAsyncTransaction okAsyncEnv samplePaymaster
        "0xsender" 0 [] { nonce := false, gasParams := false, chainId := false }
        none).1 40 260).duration ≠
      (((legacyPublishResult (runAsyncTransaction okAsyncEnv samplePaymaster
          "0xsender" 0 [] { nonce := false, gasParams := false, chainId := false }
          none).1 40 260).endTime : Int) -
       ((legacyPublishResult (runAsyncTransaction okAsyncEnv samplePaymaster
          "0xsender" 0 [] { nonce := false, gasParams := false, chainId := false }
          none).1 40 260).startTime : Int)) := by
  decide

/-- Claim C5, amended to the current orchestrator. Every setup query the
current orchestrator issues before the flows start — the gas-prefetch
queries when gas prefetch is enabled, and the two transaction-count queries
when nonce prefetch is disabled — is wired to a no-op logger, so at the
instant the submission protocols are invoked both flows' call-log arrays are
empty, for every prefetch configuration. -/
theorem setup_calls_not_logged (opts : PrefetchOptions) :
    (∀ ct ∈ setupCallTargets opts, ct.2 = LoggerTarget.silent) ∧
    logsAfterSetup (setupCallTargets opts) = ([], []) := by
  obtain ⟨n, gp, ci⟩ := opts
  cases n <;> cases gp <;> cases ci <;> decide

/-- Witness for `setup_calls_not_logged` at a concrete configuration with
gas prefetch enabled and nonce prefetch disabled. -/
theorem setup_calls_not_logged_witness :
    (SetupCall.getTransactionCount false, LoggerTarget.silent).2 =
      LoggerTarget.silent ∧
    logsAfterSetup (setupCallTargets
      { nonce := false, gasParams := true, chainId := false }) = ([], []) := by
  have h := setup_calls_not_logged
    { nonce := false, gasParams := true, chainId := false }
  exact ⟨h.1 _ (by decide), h.2⟩

/-- Counterexample to claim C5 as stated. In the legacy orchestrator variant, with nonce
prefetch disabled, the two transaction-count queries are wired to the flows'
own logging clients, so each flow's call-log array already holds its query
when the submission protocols are invoked. -/
theorem setup_logging_counterexample :
    logsAfterSetup (legacySetupCallTargets
        { nonce := false, gasParams := false, chainId := false }) =
      ([SetupCall.getTransactionCount false],
       [SetupCall.getTransactionCount true]) ∧
    logsAfterSetup (legacySetupCallTargets
        { nonce := false, gasParams := false, chainId := false }) ≠ ([], []) := by
  decide

/-- Claim C6. The gas-prefetch computation runs only when the gas-prefetch flag
is enabled; the prefetched fee cap is the block's base fee plus the suggested
priority fee when the block carries a base fee and the priority fee alone
when it is absent, the prefetched priority fee is the suggested priority
fee, and the prefetched gas limit is the gas estimate. -/
theorem prefetchedGas_spec (opts : PrefetchOptions) (o : GasOracle) :
    (opts.gasParams = false → orchestratorPrefetchGas opts o = none) ∧
    (opts.gasParams = true →
      orchestratorPrefetchGas opts o = some (computePrefetchedGas o) ∧
      (∀ b, o.baseFeePerGas = some b →
        (computePrefetchedGas o).maxFeePerGas = b + o.maxPriorityFee) ∧
      (o.baseFeePerGas = none →
        (computePrefetchedGas o).maxFeePerGas = o.maxPriorityFee) ∧
      (computePrefetchedGas o).maxPriorityFeePerGas = o.maxPriorityFee ∧
      (computePrefetchedGas o).gas = o.gasEstimate) := by
  constructor
  · intro h; simp [orchestratorPrefetchGas, h]
  · intro h
    refine ⟨by simp [orchestratorPrefetchGas, h], ?_, ?_, rfl, rfl⟩
    · intro b hb
      simp only [computePrefetchedGas, hb]
      by_cases hz : b = 0
      · subst hz; simp
      · simp [hz]
    · intro hb
      simp [computePrefetchedGas, hb]

/-- Witness for `prefetchedGas_spec` at the sample oracle, with the flag both
enabled and disabled. -/
theorem prefetchedGas_spec_witness :
    orchestratorPrefetchGas
      { nonce := false, gasParams := true, chainId := false } sampleOracle =
      some (computePrefetchedGas sampleOracle) ∧
    (computePrefetchedGas sampleOracle).maxFeePerGas = 100 + 10 ∧
    orchestratorPrefetchGas
      { nonce := false, gasParams := false, chainId := false } sampleOracle =
      none := by
  have h1 := prefetchedGas_spec
    { nonce := false, gasParams := true, chainId := false } sampleOracle
  have h2 := prefetchedGas_spec
    { nonce := false, gasParams := false, chainId := false } sampleOracle
  exact ⟨(h1.2 rfl).1, (h1.2 rfl).2.1 100 rfl, h2.1 rfl⟩

/-- Claim C7. The comparison is a pure function of the two completed results:
it names the sync result the winner exactly when the sync duration is
strictly lower and the async result when the async duration is strictly
lower, and its margin is the absolute difference of the two durations (in
either order); it constructs no new result and modifies neither input. -/
theorem comparison_winner_margin (a s : BenchmarkResult) :
    (s.duration < a.duration →
      comparisonWinner a s = "Sync (EIP-7966)" ∧ comparisonWinnerResult a s = s) ∧
    (a.duration < s.duration →
      comparisonWinner a s = "Async" ∧ comparisonWinnerResult a s = a) ∧
    comparisonTimeDifference a s = |a.duration - s.duration| ∧
    comparisonTimeDifference a s = |s.duration - a.duration| := by
  refine ⟨fun h => ?_, fun h => ?_, rfl, abs_sub_comm _ _⟩
  · simp [comparisonWinner, comparisonWinnerResult, h]
  · have h' : ¬ s.duration < a.duration := lt_asymm h
    simp [comparisonWinner, comparisonWinnerResult, h']

/-- Witness for `comparison_winner_margin` on concrete results with
durations 5 and 3. -/
theorem comparison_winner_margin_witness :
    comparisonWinner tieResultA { tieResultB with duration := 3 } =
      "Sync (EIP-7966)" ∧
    comparisonTimeDifference tieResultA { tieResultB with duration := 3 } = 2 := by
  have h := comparison_winner_margin tieResultA { tieResultB with duration := 3 }
  exact ⟨(h.1 (by decide)).1, by decide⟩

/-- Claim C8, amended. Comparing in either order always reports the same
margin, and whenever the two durations differ the two orders agree on which
result is the winner; on a tie the code labels the async side the winner, so
each order names the result passed in the async position. -/
theorem comparison_swap_agree (a b : BenchmarkResult) :
    comparisonTimeDifference a b = comparisonTimeDifference b a ∧
    (a.duration ≠ b.duration →
      comparisonWinnerResult a b = comparisonWinnerResult b a) := by
  refine ⟨abs_sub_comm _ _, fun hne => ?_⟩
  rcases lt_or_gt_of_ne hne with h | h
  · simp only [comparisonWinnerResult]
    rw [if_neg (lt_asymm h), if_pos h]
  · simp only [comparisonWinnerResult]
    rw [if_pos h, if_neg (lt_asymm h)]

/-- Witness for `comparison_swap_agree` on concrete results with distinct
durations (and the margin clause also at equal durations). -/
theorem comparison_swap_agree_witness :
    comparisonTimeDifference tieResultA tieResultB =
      comparisonTimeDifference tieResultB tieResultA ∧
    comparisonWinnerResult tieResultA { tieResultB with duration := 3 } =
      comparisonWinnerResult { tieResultB with duration := 3 } tieResultA := by
  have h1 := comparison_swap_agree tieResultA tieResultB
  have h2 := comparison_swap_agree tieResultA { tieResultB with duration := 3 }
  exact ⟨h1.1, h2.2 (by decide)⟩

/-- Counterexample to claim C8 as stated. Two distinct completed results with equal
durations: comparing in one order names the first result the winner,
comparing in the other order names the second, so the two orders do not
agree on which result wins. -/
theorem comparison_swap_counterexample :
    tieResultA.duration = tieResultB.duration ∧
    tieResultA ≠ tieResultB ∧
    comparisonWinnerResult tieResultA tieResultB = tieResultA ∧
    comparisonWinnerResult tieResultB tieResultA = tieResultB ∧
    comparisonWinnerResult tieResultA tieResultB ≠
      comparisonWinnerResult tieResultB tieResultA := by
  decide

/-- Claim C9. The polling flow's fast path is unreachable unless gas prefetch
is enabled: the orchestrator leaves the prefetched gas `none` whenever the
gas-prefetch flag is off, and with a `none` prefetched gas the polling flow
takes the normal path — its first client operation is the standard send call
and the raw-send call never appears in its trace — even when the nonce and
chain-identifier flags are both set. -/
theorem fast_path_unreachable_without_gas (env : AsyncEnv)
    (pc : PaymasterConfig) (account : String) (nonce : Nat)
    (logs : List RPCCallLog) (opts : PrefetchOptions) (o : GasOracle)
    (h : opts.gasParams = false) :
    orchestratorPrefetchGas opts o = none ∧
    (runAsyncTransaction env pc account nonce logs opts
        (orchestratorPrefetchGas opts o)).2.head? =
      some (ClientCall.sendTransaction
        (buildTxParams pc nonce opts (orchestratorPrefetchGas opts o))) ∧
    (∀ s, ClientCall.sendRawTransaction s ∉
        (runAsyncTransaction env pc account nonce logs opts
          (orchestratorPrefetchGas opts o)).2) := by
  have hg : orchestratorPrefetchGas opts o = none := by
    simp [orchestratorPrefetchGas, h]
  have hc : (opts.nonce && opts.gasParams && opts.chainId &&
      (orchestratorPrefetchGas opts o).isSome) = false := by
    rw [hg]; simp [h]
  have hn := runAsync_normal_path env pc account nonce logs opts
    (orchestratorPrefetchGas opts o) hc
  exact ⟨hg, hn.1, hn.2.2.1⟩

/-- Witness for `fast_path_unreachable_without_gas` with nonce and
chain-identifier prefetch both enabled but gas prefetch disabled. -/
theorem fast_path_unreachable_without_gas_witness :
    orchestratorPrefetchGas
      { nonce := true, gasParams := false, chainId := true } sampleOracle =
      none ∧
    (runAsyncTransaction okAsyncEnv samplePaymaster "0xsender" 0 []
        { nonce := true, gasParams := false, chainId := true }
        (orchestratorPrefetchGas
          { nonce := true, gasParams := false, chainId := true }
          sampleOracle)).2.head? =
      some (ClientCall.sendTransaction
        (buildTxParams samplePaymaster 0
          { nonce := true, gasParams := false, chainId := true }
          (orchestratorPrefetchGas
            { nonce := true, gasParams := false, chainId := true }
            sampleOracle))) := by
  have h := fast_path_unreachable_without_gas okAsyncEnv samplePaymaster
    "0xsender" 0 [] { nonce := true, gasParams := false, chainId := true }
    sampleOracle rfl
  exact ⟨h.1, h.2.1⟩

/-- Claim C10. `truncateHash` returns its input unchanged whenever the input is
shorter than ten characters (the empty string included), and for every input
of length at least ten it returns the first six characters, then "...", then
the last four — a string of exactly thirteen characters. -/
theorem truncateHash_spec (h : String) :
    (h.length < 10 → truncateHash h = h) ∧
    (10 ≤ h.length →
      truncateHash h = (h.toList.take 6).asString ++ "..."
          ++ (h.toList.drop (h.length - 4)).asString ∧
      (truncateHash h).length = 13) := by
  constructor
  · intro hlt
    simp [truncateHash, hlt]
  · intro hge
    have hnlt : ¬ h.length < 10 := not_lt.mpr hge
    have hne : ¬ h = "" := by
      intro he
      rw [he] at hge
      have h0 : ("" : String).length = 0 := rfl
      omega
    have heq : truncateHash h = (h.toList.take 6).asString ++ "..."
        ++ (h.toList.drop (h.length - 4)).asString := by
      simp [truncateHash, hne, hnlt]
    refine ⟨heq, ?_⟩
    have l1 : ((h.toList.take 6).asString).length = (h.toList.take 6).length := rfl
    have l2 : ((h.toList.drop (h.length - 4)).asString).length =
      (h.toList.drop (h.length - 4)).length := rfl
    have l3 : ("..." : String).length = 3 := rfl
    have l4 : h.toList.length = h.length := rfl
    rw [heq, String.length_append, String.length_append, l1, l2, l3,
      List.length_take, List.length_drop, l4]
    omega

/-- Witness for `truncateHash_spec` on a short and a full-length hash. -/
theorem truncateHash_spec_witness :
    truncateHash "0xshort" = "0xshort" ∧
    truncateHash "0x123456789abcdef0" = "0x1234...def0" ∧
    (truncateHash "0x123456789abcdef0").length = 13 := by
  have h1 := truncateHash_spec "0xshort"
  have h2 := truncateHash_spec "0x123456789abcdef0"
  exact ⟨h1.1 (by decide), by decide, (h2.2 (by decide)).2⟩
